import Mathlib

/-
Verification of the package lifecycle and artifact-caching engine of
`pybuild` (src/pybuild/package.py) against its design specification.

The embedding below is shallow: external inputs of the Python code
(environment variables, filesystem existence checks, HTTP responses,
values supplied by the absent helper modules `util.py` / `source.py` /
`patch.py`, such as the target architecture name, the Android API level
and the parsed NDK revision) are passed as explicit parameters, and the
side effects of each operation (file copies, permission changes, network
calls, archive extraction) are recorded in explicit outcome records.
Python `str.lower()` / `str.upper()` are modelled for ASCII text, which
covers every string the program manipulates.
-/

/-- ASCII lower-casing of one character, as Python `str.lower` acts on
the ASCII identifiers this program handles. -/
def lowerChar (c : Char) : Char :=
  if 'A' ≤ c ∧ c ≤ 'Z' then Char.ofNat (c.toNat + 32) else c

/-- ASCII upper-casing of one character, as Python `str.upper` acts on
the ASCII identifiers this program handles. -/
def upperChar (c : Char) : Char :=
  if 'a' ≤ c ∧ c ≤ 'z' then Char.ofNat (c.toNat - 32) else c

/-- ASCII lower-casing of a string (Python `str.lower`). -/
def lowerStr (s : String) : String := ⟨s.data.map lowerChar⟩

/-- ASCII upper-casing of a string (Python `str.upper`). -/
def upperStr (s : String) : String := ⟨s.data.map upperChar⟩

/-- Decimal digit characters, used to render a natural number the way a
Python f-string renders an `int`. -/
def digitChar : Nat → Char
  | 0 => '0' | 1 => '1' | 2 => '2' | 3 => '3' | 4 => '4'
  | 5 => '5' | 6 => '6' | 7 => '7' | 8 => '8' | 9 => '9'
  | _ => '*'

/-- Fuelled big-endian decimal digit list of a natural number. -/
def decReprAux : Nat → Nat → List Char
  | 0, _ => []
  | fuel + 1, n =>
    if n < 10 then [digitChar n]
    else decReprAux fuel (n / 10) ++ [digitChar (n % 10)]

/-- Decimal rendering of a natural number, matching Python `str(int)`
interpolation inside f-strings. -/
def natDecimal (n : Nat) : String := ⟨decReprAux (n + 1) n⟩

/-- Value of a digit list, the parsing inverse of `decReprAux`. -/
def decVal (l : List Char) : Nat :=
  l.foldl (fun acc c => acc * 10 + (c.toNat - 48)) 0

/-- Python truthiness of an optional string: `None` and the empty string
are falsy, every other string is truthy. -/
def truthy : Option String → Bool
  | none => false
  | some s => !(s == "")

/-- Package identity: `self.name = type(self).__name__.lower()`
(package.py line 36). -/
def package_name (className : String) : String := lowerStr className

/-- Embedding of `Package.get_version` (package.py lines 47-48): the
declared literal version wins when truthy, otherwise the version the
source resolved. -/
def get_version (version : Option String) (source_version : String) : String :=
  if truthy version then version.getD "" else source_version

/-- Embedding of `Package.tarball_name` (package.py lines 158-161): the
archive name is the exact f-string
`{name}-{arch}-{version}-android{api_level}-ndk_{ndk_revision}.tar.bz2`,
with the API level rendered in decimal. -/
def tarball_name (name arch version : String) (api_level : Nat)
    (ndk_revision : String) : String :=
  name ++ "-" ++ arch ++ "-" ++ version ++ "-android" ++
    natDecimal api_level ++ "-ndk_" ++ ndk_revision ++ ".tar.bz2"

/-- The two concrete kinds of `Source` (source.py: `URLSource`,
`VCSSource`), as dispatched on by `isinstance` in package.py. -/
inductive SourceKind
  | url
  | vcs
deriving DecidableEq

/-- A `Source` descriptor: its kind, its origin locator and its optional
detached-signature suffix. -/
structure Src where
  kind : SourceKind
  source_url : String
  sig_suffix : Option String
deriving DecidableEq

/-- The implicit signature `URLSource(source.source_url +
source.sig_suffix)` appended by `Package.sources` (package.py lines
57-58); the constructed `URLSource` carries no signature suffix of its
own. -/
def sig_source (s : Src) : Src :=
  ⟨SourceKind.url, s.source_url ++ s.sig_suffix.getD "", none⟩

/-- The accumulating loop of `Package.sources` (package.py lines 52-58):
append each source, and right after it its implicit signature source when
the signature suffix is truthy. -/
def sourcesLoop (acc : List Src) : List Src → List Src
  | [] => acc
  | s :: rest =>
      sourcesLoop
        (if truthy s.sig_suffix then acc ++ [s] ++ [sig_source s]
         else acc ++ [s]) rest

/-- Modelled from the spec: `Patch` (src/pybuild/patch.py is absent from
the sources) is a `Source` for enumeration purposes — "a patch IS a
Source for fetch purposes" (spec 4.2) — so the
`if source and isinstance(source, Source)` filter of `Package.sources`
(package.py lines 50-59) keeps every patch and drops only a `None`
`self.source`; with that, this is the embedding of `Package.sources`. -/
def sources (source : Option Src) (patches : List Src) : List Src :=
  sourcesLoop [] (source.toList ++ patches)

/-- Embedding of `Package.need_download` (package.py lines 106-111).
`makefile_exists` is the filesystem fact
`(self.source.source_dir / 'Makefile').exists()`. -/
def need_download (source : Option Src) (makefile_exists : Bool) : Bool :=
  match source with
  | none => false
  | some s =>
    match s.kind with
    | SourceKind.vcs => true
    | SourceKind.url => !makefile_exists

/-- An environment-variable value: a single path-like string or an
ordered sequence of flag strings, mirroring
`Union[_PathType, Sequence[_PathType]]`. -/
inductive EnvVal
  | str (s : String)
  | list (l : List String)
deriving DecidableEq

/-- The external inputs of `Package.init_build_env`: the validated
unified-toolchain bin directory, `target_arch().ANDROID_TARGET`,
`android_api_level()`, `target_arch().binutils_prefix` (all supplied by
the absent `util.py` / arch modules) and the shared sysroot path. -/
structure BuildConfig where
  unified_toolchain : String
  android_target : String
  api_level : Nat
  binutilsPrefix : String
  sysroot : String
deriving DecidableEq

/-- The binutils-family tool names of the loop in package.py line 97. -/
def binutilsProgs : List String :=
  ["ar", "as", "ld", "objcopy", "objdump", "ranlib", "strip", "readelf"]

/-- The environment mapping built by `Package.init_build_env`
(package.py lines 69-98), in dict insertion order: compilers, compiler
flags, pkg-config settings, then the upper-cased binutils tools. -/
def built_env (c : BuildConfig) : List (String × EnvVal) :=
  let CLANG_PREFIX : String :=
    c.unified_toolchain ++ "/" ++ (c.android_target ++ natDecimal c.api_level)
  let cflags : List String := ["-fPIC"]
  [("CC", EnvVal.str (CLANG_PREFIX ++ "-clang")),
   ("CXX", EnvVal.str (CLANG_PREFIX ++ "-clang++")),
   ("CPP", EnvVal.str (CLANG_PREFIX ++ "-clang -E")),
   ("CPPFLAGS", EnvVal.list ["-I" ++ c.sysroot ++ "/usr/include"]),
   ("CFLAGS", EnvVal.list cflags),
   ("CXXFLAGS", EnvVal.list cflags),
   ("LDFLAGS", EnvVal.list
      ["-L" ++ c.sysroot ++ "/usr/lib", "-pie", "-fuse-ld=lld"]),
   ("PKG_CONFIG_SYSROOT_DIR", EnvVal.str c.sysroot),
   ("PKG_CONFIG_LIBDIR", EnvVal.str (c.sysroot ++ "/usr/lib/pkgconfig"))]
  ++ binutilsProgs.map (fun prog =>
      (upperStr prog,
       EnvVal.str (c.unified_toolchain ++ "/" ++
         (c.binutilsPrefix ++ "-" ++ prog))))

/-- Embedding of `Package.init_build_env` (package.py lines 65-100): a
truthy (non-empty) `env` returns `False` at once and leaves the mapping
untouched; an empty `env` is populated with `built_env` and the call
returns `True`. The pair is (return value, env after the call). -/
def init_build_env (c : BuildConfig) (env : List (String × EnvVal)) :
    Bool × List (String × EnvVal) :=
  if env.isEmpty then (true, built_env c) else (false, env)

/-- The failure modes of `Package._check_ndk` (package.py lines 122-138),
each carrying the exact exception message raised. -/
inductive NdkError
  | missingNdkEnv (msg : String)
  | unsupportedHost (msg : String)
  | toolchainTooOld (msg : String)
deriving DecidableEq

/-- Embedding of `Package._check_ndk` (package.py lines 122-138).
`android_ndk` is `os.getenv('ANDROID_NDK')`, `sysname` is
`os.uname().sysname`, and `dirExists` is the filesystem existence
predicate. On success the validated unified-toolchain bin directory is
returned; each failure carries its exception message. -/
def check_ndk (android_ndk : Option String) (sysname : String)
    (dirExists : String → Bool) : Except NdkError String :=
  if truthy android_ndk = false then
    Except.error
      (NdkError.missingNdkEnv "Requires environment variable $ANDROID_NDK")
  else
    let ndk := android_ndk.getD ""
    let HOST_OS := lowerStr sysname
    if HOST_OS == "linux" || HOST_OS == "darwin" then
      let ut :=
        ndk ++ "/toolchains/llvm/prebuilt/" ++ HOST_OS ++ "-x86_64/bin"
      if dirExists ut then Except.ok ut
      else
        Except.error
          (NdkError.toolchainTooOld "Requires Android NDK r19 or above")
    else
      Except.error
        (NdkError.unsupportedHost ("Unsupported system " ++ HOST_OS))

/-- The observable effects of `Package.upload_tarball`: the list of
(source path, destination directory) file copies performed and the list
of (path, mode) permission changes performed. -/
structure UploadOutcome where
  copies : List (String × String)
  chmods : List (String × Nat)
deriving DecidableEq

/-- Embedding of `Package.upload_tarball` (package.py lines 167-176):
with `skip_uploading` set it returns at once; with no truthy
`PYTHON3_ANDROID_TARBALL_DEST` it does nothing; otherwise it copies the
local archive to the destination and chmods the copy to 0o644. -/
def upload_tarball (skip_uploading : Bool) (dest : Option String)
    (tarball_path tarball_base : String) : UploadOutcome :=
  if skip_uploading then ⟨[], []⟩
  else if truthy dest then
    let d := dest.getD ""
    ⟨[(tarball_path, d)], [(d ++ "/" ++ tarball_base, 0o644)]⟩
  else ⟨[], []⟩

/-- The answer of `urllib.request.urlopen` on the archive-cache URL:
either the tarball bytes or an `HTTPError` with its status code. -/
inductive UrlResult
  | ok (data : List Nat)
  | httpError (code : Nat)
deriving DecidableEq

/-- The observable outcome of `Package.fetch_tarball`: the returned value
(`none`/`some true`/`some false` for Python `None`/`True`/`False`) or a
propagated `HTTPError` status code, plus which effects ran: the local
`tarball_path.exists()` check, the network request, the local file write,
and the `extract_tarball` extraction into the sysroot. -/
structure FetchOutcome where
  result : Except Nat (Option Bool)
  localChecked : Bool
  networkCalled : Bool
  wroteFile : Bool
  extracted : Bool

/-- Embedding of `Package.fetch_tarball` (package.py lines 183-208):
`skip_uploading` returns `None` before any check; an existing local
archive returns `True` with no network call; otherwise the remote store
is consulted — a 404 yields `False`, any other `HTTPError` propagates,
and a successful download writes the file, extracts it into the sysroot
and returns `True`. -/
def fetch_tarball (skip_uploading tarball_exists : Bool)
    (response : UrlResult) : FetchOutcome :=
  if skip_uploading then ⟨Except.ok none, false, false, false, false⟩
  else if tarball_exists then
    ⟨Except.ok (some true), true, false, false, false⟩
  else
    match response with
    | UrlResult.ok _ => ⟨Except.ok (some true), true, true, true, true⟩
    | UrlResult.httpError code =>
      if code = 404 then ⟨Except.ok (some false), true, true, false, false⟩
      else ⟨Except.error code, true, true, false, false⟩

theorem data_append (s t : String) : (s ++ t).data = s.data ++ t.data := by
  cases s; cases t; rfl

theorem decVal_append_digit (A : List Char) (c : Char) :
    decVal (A ++ [c]) = decVal A * 10 + (c.toNat - 48) := by
  simp [decVal, List.foldl_append]

theorem digitChar_val (d : Nat) (h : d < 10) : (digitChar d).toNat - 48 = d := by
  interval_cases d <;> decide

theorem decVal_decReprAux : ∀ fuel n, n < fuel → decVal (decReprAux fuel n) = n := by
  intro fuel
  induction fuel with
  | zero => intro n h; omega
  | succ f ih =>
    intro n h
    unfold decReprAux
    by_cases h10 : n < 10
    · simp only [h10, if_true]
      have hv : decVal [digitChar n] = (digitChar n).toNat - 48 := by
        simp [decVal]
      rw [hv, digitChar_val n h10]
    · simp only [h10, if_false]
      rw [decVal_append_digit]
      have hd : n / 10 < f := by omega
      rw [ih (n / 10) hd, digitChar_val (n % 10) (Nat.mod_lt _ (by norm_num))]
      omega

theorem natDecimal_injective : Function.Injective natDecimal := by
  intro m n h
  have hdata : decReprAux (m + 1) m = decReprAux (n + 1) n := congrArg String.data h
  have hm := decVal_decReprAux (m + 1) m (Nat.lt_succ_self m)
  have hn := decVal_decReprAux (n + 1) n (Nat.lt_succ_self n)
  rw [hdata] at hm
  omega

theorem tarball_name_data (n a v : String) (api : Nat) (r : String) :
    (tarball_name n a v api r).data =
      n.data ++ ("-".data ++ (a.data ++ ("-".data ++ (v.data ++
        ("-android".data ++ ((natDecimal api).data ++
          ("-ndk_".data ++ (r.data ++ ".tar.bz2".data)))))))) := by
  simp only [tarball_name, data_append, List.append_assoc]

theorem tarball_inj_name {n n' a v : String} {api : Nat} {r : String}
    (h : tarball_name n a v api r = tarball_name n' a v api r) : n = n' := by
  have hd := congrArg String.data h
  rw [tarball_name_data, tarball_name_data] at hd
  exact String.ext (List.append_cancel_right hd)

theorem tarball_inj_arch {n a a' v : String} {api : Nat} {r : String}
    (h : tarball_name n a v api r = tarball_name n a' v api r) : a = a' := by
  have hd := congrArg String.data h
  rw [tarball_name_data, tarball_name_data] at hd
  exact String.ext
    (List.append_cancel_right
      (List.append_cancel_left (List.append_cancel_left hd)))

theorem tarball_inj_version {n a v v' : String} {api : Nat} {r : String}
    (h : tarball_name n a v api r = tarball_name n a v' api r) : v = v' := by
  have hd := congrArg String.data h
  rw [tarball_name_data, tarball_name_data] at hd
  exact String.ext
    (List.append_cancel_right
      (List.append_cancel_left (List.append_cancel_left
        (List.append_cancel_left (List.append_cancel_left hd)))))

theorem tarball_inj_api {n a v : String} {api api' : Nat} {r : String}
    (h : tarball_name n a v api r = tarball_name n a v api' r) : api = api' := by
  have hd := congrArg String.data h
  rw [tarball_name_data, tarball_name_data] at hd
  exact natDecimal_injective
    (String.ext
      (List.append_cancel_right
        (List.append_cancel_left (List.append_cancel_left
          (List.append_cancel_left (List.append_cancel_left
            (List.append_cancel_left (List.append_cancel_left hd))))))))

theorem tarball_inj_ndk {n a v : String} {api : Nat} {r r' : String}
    (h : tarball_name n a v api r = tarball_name n a v api r') : r = r' := by
  have hd := congrArg String.data h
  rw [tarball_name_data, tarball_name_data] at hd
  exact String.ext
    (List.append_cancel_right
      (List.append_cancel_left (List.append_cancel_left
        (List.append_cancel_left (List.append_cancel_left
          (List.append_cancel_left (List.append_cancel_left
            (List.append_cancel_left (List.append_cancel_left hd)))))))))

/-- Claim C1: the archive name is a pure deterministic function of the
five-tuple (package name, architecture, resolved version, API level,
toolchain revision) with the exact grammar
`{name}-{arch}-{version}-android{api_level}-ndk_{ndk_revision}.tar.bz2`;
the package `Foo` with resolved version `1.2.3`, architecture `arm64`,
API level 24 and toolchain revision `21` yields
`foo-arm64-1.2.3-android24-ndk_21.tar.bz2`, and changing any one of the
five components (the other four held fixed) changes the name. -/
theorem C1_tarball_name_format :
    tarball_name (package_name "Foo") "arm64" (get_version none "1.2.3") 24 "21"
        = "foo-arm64-1.2.3-android24-ndk_21.tar.bz2"
    ∧ (∀ n a v api r n', n ≠ n' →
        tarball_name n a v api r ≠ tarball_name n' a v api r)
    ∧ (∀ n a v api r a', a ≠ a' →
        tarball_name n a v api r ≠ tarball_name n a' v api r)
    ∧ (∀ n a v api r v', v ≠ v' →
        tarball_name n a v api r ≠ tarball_name n a v' api r)
    ∧ (∀ n a v api r api', api ≠ api' →
        tarball_name n a v api r ≠ tarball_name n a v api' r)
    ∧ (∀ n a v api r r', r ≠ r' →
        tarball_name n a v api r ≠ tarball_name n a v api r') := by
  refine ⟨by decide, ?_, ?_, ?_, ?_, ?_⟩
  · intro n a v api r n' hne h; exact hne (tarball_inj_name h)
  · intro n a v api r a' hne h; exact hne (tarball_inj_arch h)
  · intro n a v api r v' hne h; exact hne (tarball_inj_version h)
  · intro n a v api r api' hne h; exact hne (tarball_inj_api h)
  · intro n a v api r r' hne h; exact hne (tarball_inj_ndk h)

/-- Witness for C1 at concrete inputs: distinct names and distinct API
levels give distinct archive names. -/
theorem C1_witness :
    tarball_name "foo" "arm64" "1.2.3" 24 "21"
        ≠ tarball_name "bar" "arm64" "1.2.3" 24 "21"
    ∧ tarball_name "foo" "arm64" "1.2.3" 24 "21"
        ≠ tarball_name "foo" "arm64" "1.2.3" 25 "21" :=
  ⟨C1_tarball_name_format.2.1 "foo" "arm64" "1.2.3" 24 "21" "bar" (by decide),
   C1_tarball_name_format.2.2.2.2.1 "foo" "arm64" "1.2.3" 24 "21" 25 (by decide)⟩

/-- Claim C2: when the remote archive store answers the cache fetch with
HTTP 404, `fetch_tarball` does not raise — it returns the negative result
`False` so the lifecycle proceeds to build from source; any HTTP error
other than 404 propagates unmodified to the caller. -/
theorem C2_fetch_tarball_http_404 :
    fetch_tarball false false (UrlResult.httpError 404)
        = ⟨Except.ok (some false), true, true, false, false⟩
    ∧ ∀ code, code ≠ 404 →
        fetch_tarball false false (UrlResult.httpError code)
          = ⟨Except.error code, true, true, false, false⟩ := by
  refine ⟨rfl, ?_⟩
  intro code h
  simp [fetch_tarball, h]

/-- Witness for C2: an HTTP 500 from the archive store propagates as the
error 500. -/
theorem C2_witness :
    fetch_tarball false false (UrlResult.httpError 500)
      = ⟨Except.error 500, true, true, false, false⟩ :=
  C2_fetch_tarball_http_404.2 500 (by decide)

/-- Claim C3: `init_build_env` mutates `env` only on the first call: on
an empty `env` it populates the mapping and returns `True`; once `env` is
non-empty (in particular right after the first call) every further call
returns `False` and leaves `env` unchanged. -/
theorem C3_init_build_env_idempotent (c : BuildConfig) :
    (init_build_env c []).1 = true
    ∧ (init_build_env c []).2 = built_env c
    ∧ init_build_env c (init_build_env c []).2 = (false, (init_build_env c []).2)
    ∧ ∀ env, env ≠ [] → init_build_env c env = (false, env) := by
  refine ⟨rfl, rfl, ?_, ?_⟩
  · show init_build_env c (built_env c) = (false, built_env c)
    simp [init_build_env, built_env]
  · intro env h
    cases env with
    | nil => exact absurd rfl h
    | cons x xs => rfl

/-- Witness for C3: a second call on an already-populated environment is
a no-op that returns `False`. -/
theorem C3_witness :
    init_build_env ⟨"/tc/bin", "aarch64-linux-android", 24, "llvm", "/sr"⟩
        [("CC", EnvVal.str "cc")]
      = (false, [("CC", EnvVal.str "cc")]) :=
  (C3_init_build_env_idempotent
      ⟨"/tc/bin", "aarch64-linux-android", 24, "llvm", "/sr"⟩).2.2.2
    [("CC", EnvVal.str "cc")] (by decide)

/-- Claim C4: a VCS-sourced package always needs a download, even when
the build-control file (`Makefile`) is already present in the source
directory; a URL-sourced package needs a download exactly when the
build-control file is absent. -/
theorem C4_need_download_vcs_url :
    (∀ u sig m, need_download (some ⟨SourceKind.vcs, u, sig⟩) m = true)
    ∧ ∀ u sig m, need_download (some ⟨SourceKind.url, u, sig⟩) m = !m := by
  constructor
  · intro u sig m; rfl
  · intro u sig m; rfl

/-- Claim C5: a toolchain root that exists but lacks the subdirectory
`toolchains/llvm/prebuilt/{host}-x86_64/bin` makes `_check_ndk` fail on a
supported host with the toolchain-version error, whose message names the
minimum required revision (r19); no toolchain path is produced (the
result is an error, not an `ok` carrying a compiler prefix), so no
compiler path or environment variable is ever constructed from it. -/
theorem C5_check_ndk_version_error :
    ∀ root sysname fs, root ≠ "" → fs root = true →
      (lowerStr sysname = "linux" ∨ lowerStr sysname = "darwin") →
      fs (root ++ "/toolchains/llvm/prebuilt/" ++ lowerStr sysname
          ++ "-x86_64/bin") = false →
      check_ndk (some root) sysname fs
        = Except.error
            (NdkError.toolchainTooOld "Requires Android NDK r19 or above") := by
  intro root sysname fs hroot _hex hhost hfs
  have ht : truthy (some root) = true := by
    simp [truthy, hroot]
  rcases hhost with h | h <;> rw [h] at hfs <;>
    simp [check_ndk, ht, h, hfs, List.append_assoc]

/-- Witness for C5: an existing NDK root with no unified-toolchain bin
directory yields the toolchain-version error on a Linux host. -/
theorem C5_witness :
    check_ndk (some "/opt/android-ndk") "Linux"
        (fun s => s == "/opt/android-ndk")
      = Except.error
          (NdkError.toolchainTooOld "Requires Android NDK r19 or above") :=
  C5_check_ndk_version_error "/opt/android-ndk" "Linux"
    (fun s => s == "/opt/android-ndk")
    (by decide) (by decide) (Or.inl (by decide)) (by decide)

/-- Claim C6: with the `skip_uploading` flag set, `upload_tarball`
performs no filesystem copy and no permission change, for every
destination setting, and returns normally. -/
theorem C6_upload_tarball_skip :
    ∀ dest tp base, upload_tarball true dest tp base = ⟨[], []⟩ := by
  intro dest tp base; rfl

/-- Claim C7: when the local archive already exists (and uploading is not
opted out), `fetch_tarball` returns `True` with no network request, no
file write and no extraction; the outcome does not depend on the remote
store's answer, so repeated calls in this state yield the same result. -/
theorem C7_fetch_tarball_local_exists :
    ∀ resp resp',
      fetch_tarball false true resp
          = ⟨Except.ok (some true), true, false, false, false⟩
      ∧ fetch_tarball false true resp = fetch_tarball false true resp' := by
  intro resp resp'; exact ⟨rfl, rfl⟩

/-- Claim C8: in the `sources` enumeration every source (patches
included) with a truthy signature suffix is followed by the implicit URL
source whose locator is the original URL with the suffix appended, and a
source without a suffix contributes exactly the one entry `[s]` — the
enumeration is the concatenation of these per-source contributions. -/
theorem C8_sources_signature_sources :
    ∀ (source : Option Src) (patches : List Src),
      sources source patches
        = (source.toList ++ patches).flatMap (fun s =>
            if truthy s.sig_suffix then [s, sig_source s] else [s])
      ∧ ∀ s, s ∈ source.toList ++ patches → truthy s.sig_suffix = true →
          sig_source s ∈ sources source patches := by
  have key : ∀ (l acc : List Src),
      sourcesLoop acc l
        = acc ++ l.flatMap (fun s =>
            if truthy s.sig_suffix then [s, sig_source s] else [s]) := by
    intro l
    induction l with
    | nil => intro acc; simp [sourcesLoop]
    | cons s rest ih =>
      intro acc
      by_cases h : truthy s.sig_suffix = true <;>
        simp [sourcesLoop, h, ih, List.append_assoc]
  intro source patches
  constructor
  · rw [sources, key]
    simp
  · intro s hs htr
    rw [sources, key]
    simp only [List.nil_append, List.mem_flatMap]
    exact ⟨s, hs, by simp [htr]⟩

/-- Witness for C8: a URL source with signature suffix `.asc` is
accompanied in the enumeration by the implicit signature source. -/
theorem C8_witness :
    sig_source ⟨SourceKind.url, "http://h/a.tar.xz", some ".asc"⟩
      ∈ sources (some ⟨SourceKind.url, "http://h/a.tar.xz", some ".asc"⟩) [] :=
  (C8_sources_signature_sources
      (some ⟨SourceKind.url, "http://h/a.tar.xz", some ".asc"⟩) []).2
    ⟨SourceKind.url, "http://h/a.tar.xz", some ".asc"⟩ (by decide) (by decide)

/-- Claim C9: with the `skip_uploading` flag set, `fetch_tarball` does no
local-file check, no network request, no file write and no extraction,
and returns `None` — neither `True` nor `False` — whatever the local
archive state and the remote store's answer would have been. -/
theorem C9_fetch_tarball_skip :
    ∀ tarball_exists resp,
      fetch_tarball true tarball_exists resp
        = ⟨Except.ok none, false, false, false, false⟩ := by
  intro t r; rfl

/-- Claim C10: extraction into the shared sysroot happens only on the
fresh-download path: with an already-existing local archive
`fetch_tarball` reports the cache hit `True` without extracting, while a
fresh successful download does extract. -/
theorem C10_extract_only_on_fresh_download :
    ∀ resp data,
      (fetch_tarball false true resp).extracted = false
      ∧ (fetch_tarball false true resp).result = Except.ok (some true)
      ∧ (fetch_tarball false false (UrlResult.ok data)).extracted = true := by
  intro r d; exact ⟨rfl, rfl, rfl⟩
